import Mathlib

/-!
Verification development for the GeoViz3D geospatial pipeline.

Shallow embedding of the core modules:
  * utils/data_processing.py  (feature classification, height/color/width tables)
  * services/elevation_service.py  (batched elevation lookup with downsampling)
  * services/overpass_service.py  (retry loop of query_overpass)
  * utils/visualization.py  (color scale interpolation)
  * models/geo_data.py  (GeoDataCollection and its tag filter)

Python floats are modelled as rationals; Python dicts of string tags as
association lists; network calls as explicit function parameters returning
Option (none = the request raised); the in-memory caches as explicit lookup
functions passed in.
-/

/-- OSM tag mappings: string keys to string values (Python dict of str). -/
abbrev Tags := List (String × String)

/-- Coordinates as (lon, lat) pairs, the [lon, lat] lists of the source. -/
abbrev Coord : Type := ℚ × ℚ

/-- Key presence test, the Python expression `key in tags`. -/
def hasTag (tags : Tags) (k : String) : Bool :=
  (List.lookup k tags).isSome

/-- Python str.capitalize: first character upper, the rest lower. -/
def pyCapitalize (s : String) : String :=
  (s.take 1).toUpper ++ (s.drop 1).toLower

/-- Whitespace-run tokenizer on character lists: the accumulator holds the
current token reversed. Kernel-reducible replacement for the split of the
Python str.split() builtin. -/
def wsTokens : List Char → List Char → List (List Char)
  | acc, [] => if acc.isEmpty then [] else [acc.reverse]
  | acc, c :: rest =>
    if c.isWhitespace then
      if acc.isEmpty then wsTokens [] rest else acc.reverse :: wsTokens [] rest
    else wsTokens (c :: acc) rest

/-- Python str.split() with no argument: split on whitespace runs,
dropping empty pieces. -/
def pySplit (s : String) : List String :=
  (wsTokens [] s.toList).map String.mk

/-- Strip whitespace from both ends of a character list. -/
def trimChars (cs : List Char) : List Char :=
  ((cs.dropWhile (fun c => c.isWhitespace)).reverse.dropWhile
    (fun c => c.isWhitespace)).reverse

/-- Split a character list on a delimiter character. -/
def splitOnChar (d : Char) : List Char → List (List Char)
  | [] => [[]]
  | c :: rest =>
    if c = d then [] :: splitOnChar d rest
    else
      match splitOnChar d rest with
      | t :: ts => (c :: t) :: ts
      | [] => [[c]]

/-- Value of a run of decimal digit characters (0 for the empty run). -/
def digitsVal (cs : List Char) : ℕ :=
  cs.foldl (fun n c => 10 * n + (c.toNat - 48)) 0

/-- A nonempty all-digit character list parsed as a natural number. -/
def parseNatDigits? (cs : List Char) : Option ℕ :=
  if cs ≠ [] ∧ cs.all (fun c => c.isDigit) then some (digitsVal cs) else none

/-- Unsigned decimal mantissa of a Python float literal: digits with an
optional single dot, at least one digit overall. -/
def parseUnsignedDec? (t : List Char) : Option ℚ :=
  match splitOnChar '.' t with
  | [a] => (parseNatDigits? a).map (fun n => (n : ℚ))
  | [a, b] =>
    if (a ≠ [] ∨ b ≠ []) ∧ a.all (fun c => c.isDigit) ∧
        b.all (fun c => c.isDigit) then
      some ((digitsVal a : ℚ) + (digitsVal b : ℚ) / (10 ^ b.length))
    else none
  | _ => none

/-- Signed integer for the exponent part of a Python float literal. -/
def parseExpPart? (t : List Char) : Option ℤ :=
  match t with
  | '+' :: rest => (parseNatDigits? rest).map (fun n => (n : ℤ))
  | '-' :: rest => (parseNatDigits? rest).map (fun n => -(n : ℤ))
  | _ => (parseNatDigits? t).map (fun n => (n : ℤ))

/-- Unsigned Python float literal with an optional exponent. -/
def pyFloatCore? (t : List Char) : Option ℚ :=
  let parts := if t.contains 'e' then splitOnChar 'e' t
    else if t.contains 'E' then splitOnChar 'E' t else [t]
  match parts with
  | [m] => parseUnsignedDec? m
  | [m, e] =>
    match parseUnsignedDec? m, parseExpPart? e with
    | some mv, some ev => some (mv * (10 : ℚ) ^ ev)
    | _, _ => none
  | _ => none

/-- Models the Python builtin float() on plain decimal and scientific
notation: surrounding whitespace stripped, optional sign, digits with an
optional dot and exponent. Exotic accepted forms (inf, nan, underscores,
hex) are outside the numeric tag values this pipeline meets and parse to
none here. -/
def pyFloat? (s : String) : Option ℚ :=
  match trimChars s.toList with
  | '+' :: rest => pyFloatCore? rest
  | '-' :: rest => (pyFloatCore? rest).map (fun q => -q)
  | t => pyFloatCore? t

/-! ## Configuration defaults (config/settings.py) -/

/-- Default cap on processed elements (MAX_FEATURES). -/
def MAX_FEATURES : ℕ := 1000

/-- Default cap on elevation sample points (MAX_ELEVATION_POINTS). -/
def MAX_ELEVATION_POINTS : ℕ := 100

/-- Default retry ceiling (MAX_RETRIES). -/
def MAX_RETRIES : ℕ := 3

/-! ## Building height estimation (utils/data_processing.py) -/

/-- The base height table of estimate_building_height, keyed by the value
of the building tag. -/
def base_heights : List (String × ℚ) :=
  [("apartments", 15), ("residential", 8), ("house", 6), ("detached", 6),
   ("commercial", 10), ("industrial", 8), ("office", 15), ("retail", 6),
   ("warehouse", 8), ("church", 15), ("cathedral", 25), ("mosque", 15),
   ("temple", 15), ("synagogue", 15), ("school", 9), ("university", 12),
   ("hospital", 15), ("hotel", 15), ("train_station", 12), ("stadium", 20),
   ("yes", 8)]

/-- The height-tag parse of estimate_building_height: the leading
whitespace-separated token of the height value fed to float(); none when
the key is absent, the value has no token, or float() raises. -/
def parseHeightTag? (tags : Tags) : Option ℚ :=
  (List.lookup "height" tags).bind (fun s => ((pySplit s).head?).bind pyFloat?)

/-- The building:levels parse of estimate_building_height: the whole value
fed to float(); none when absent or unparsable. -/
def parseLevelsTag? (tags : Tags) : Option ℚ :=
  (List.lookup "building:levels" tags).bind pyFloat?

/-- estimate_building_height of utils/data_processing.py: height tag first,
then building:levels times 3, then the base height table keyed by the
building tag value (default key "yes", default entry 8), each scaled by
the height factor. -/
def estimate_building_height (tags : Tags) (height_factor : ℚ) : ℚ :=
  match parseHeightTag? tags with
  | some h => h * height_factor
  | none =>
    match parseLevelsTag? tags with
    | some levels => levels * 3 * height_factor
    | none =>
      let building_type := (List.lookup "building" tags).getD "yes"
      let base_height := (List.lookup building_type base_heights).getD 8
      base_height * height_factor

/-- The building color table of get_building_color, RGBA rows. -/
def building_color_scheme : List (String × List ℤ) :=
  [("apartments", [102, 102, 156, 200]), ("residential", [102, 102, 156, 200]),
   ("house", [119, 119, 165, 200]), ("detached", [119, 119, 165, 200]),
   ("commercial", [99, 99, 184, 200]), ("industrial", [150, 150, 150, 200]),
   ("office", [74, 140, 247, 200]), ("retail", [61, 129, 224, 200]),
   ("warehouse", [150, 150, 150, 200]), ("church", [251, 140, 0, 200]),
   ("cathedral", [251, 140, 0, 200]), ("mosque", [251, 140, 0, 200]),
   ("temple", [251, 140, 0, 200]), ("synagogue", [251, 140, 0, 200]),
   ("school", [255, 128, 128, 200]), ("university", [255, 100, 100, 200]),
   ("hospital", [226, 122, 171, 200]), ("hotel", [51, 163, 255, 200]),
   ("train_station", [51, 163, 255, 200]), ("stadium", [54, 202, 155, 200]),
   ("yes", [74, 140, 247, 200])]

/-- get_building_color of utils/data_processing.py. -/
def get_building_color (tags : Tags) : List ℤ :=
  let building_type := (List.lookup "building" tags).getD "yes"
  (List.lookup building_type building_color_scheme).getD [74, 140, 247, 200]

/-- The road width table of get_road_width. -/
def road_width_scheme : List (String × ℚ) :=
  [("motorway", 4), ("trunk", 35/10), ("primary", 3), ("secondary", 25/10),
   ("tertiary", 2), ("residential", 15/10), ("service", 1), ("footway", 5/10),
   ("cycleway", 5/10), ("path", 5/10), ("track", 1), ("unclassified", 15/10),
   ("road", 15/10)]

/-- get_road_width of utils/data_processing.py. -/
def get_road_width (highway_type : String) : ℚ :=
  (List.lookup highway_type road_width_scheme).getD (15/10)

/-! ## Elevation service (services/elevation_service.py)

The external provider is a parameter fetch returning none when the request
raises (timeout, HTTP error, network error); the in-memory per-coordinate
cache is a parameter lookup function (the source keys it by the coordinate
formatted to five decimals; cache writes after a successful response do not
affect the value returned and are not modelled). -/

/-- The integer index sequence of numpy linspace(0, n-1, m) cast to int:
m indices, the k-th being the truncation of k(n-1)/(m-1), computed here
over exact rationals (Nat division is the floor, and the values are
non-negative). -/
def linspaceIdx (n m : ℕ) : List ℕ :=
  (List.range m).map (fun k => k * (n - 1) / (m - 1))

/-- The downsampling step of get_elevation_data: a list longer than the
point cap is replaced by the entries at the linspace indices. -/
def elevDownsample (maxPoints : ℕ) (coords : List Coord) : List Coord :=
  if coords.length > maxPoints then
    (linspaceIdx coords.length maxPoints).map (fun i => coords.getD i (0, 0))
  else coords

/-- The cache-miss request list of get_elevation_data: the downsampled
coordinates whose cache lookup misses, in order. -/
def elevRequest (cache : Coord → Option ℚ) (maxPoints : ℕ)
    (coords : List Coord) : List Coord :=
  (elevDownsample maxPoints coords).filter (fun c => (cache c).isNone)

/-- The update loop over the response results: write result i at the i-th
miss index (zip truncates at the shorter list, matching a response with
fewer results; the leftover slots stay none and become 0 below). -/
def applyElevUpdates (elevs : List (Option ℚ)) (updates : List (ℕ × ℚ)) :
    List (Option ℚ) :=
  updates.foldl (fun l u => l.set u.1 (some u.2)) elevs

/-- get_elevation_data of services/elevation_service.py: empty input short
circuit, downsampling past the cap, per-slot cache lookup, one batched
request for the misses, zero fill of every still-missing slot on failure,
and a final zero fill of any remaining none. -/
def get_elevation_data (fetch : List Coord → Option (List ℚ))
    (cache : Coord → Option ℚ) (maxPoints : ℕ)
    (coords_list : List Coord) : List ℚ :=
  if coords_list.isEmpty then []
  else
    let cl := elevDownsample maxPoints coords_list
    let elevations : List (Option ℚ) := cl.map cache
    let coords_to_fetch := elevRequest cache maxPoints coords_list
    let coords_indices :=
      (cl.enum.filter (fun p => (cache p.2).isNone)).map Prod.fst
    let elevations :=
      if coords_to_fetch.isEmpty then elevations
      else
        match fetch coords_to_fetch with
        | some results => applyElevUpdates elevations (coords_indices.zip results)
        | none => elevations.map (fun e => some (e.getD 0))
    elevations.map (fun e => e.getD 0)

/-! ## Raw Overpass elements and the classification pipeline
(utils/data_processing.py) -/

/-- One entry of the geometry array of a way element; lat and lon may be
absent, mirroring the membership checks of the source. -/
structure RawGeomPt where
  lat? : Option ℚ
  lon? : Option ℚ
deriving DecidableEq

/-- A raw Overpass element: the keys the pipeline reads. Optional fields
model key absence in the JSON mapping; an absent geometry key behaves as
the empty list (the source reads it with a [] default). -/
structure OSMElement where
  type_ : String
  id? : Option ℤ
  tags : Tags
  lat? : Option ℚ
  lon? : Option ℚ
  nodes? : Option (List ℤ)
  geometry : List RawGeomPt
deriving DecidableEq

/-- A processed point feature, the dict appended by process_node. -/
structure PointF where
  coordinates : Coord
  name : String
  type_ : String
  element_id : Option ℤ
  tags : Tags
deriving DecidableEq

/-- A processed building feature, the dict appended by process_building. -/
structure BuildingF where
  coordinates : List Coord
  name : String
  height : ℚ
  element_id : Option ℤ
  color : List ℤ
  tags : Tags
deriving DecidableEq

/-- A processed road feature, the dict appended by process_road. -/
structure RoadF where
  coordinates : List Coord
  name : String
  width : ℚ
  element_id : Option ℤ
  type_ : String
  tags : Tags
deriving DecidableEq

/-- A processed polygon feature, the dict appended by process_polygon. -/
structure PolygonF where
  coordinates : List Coord
  name : String
  type_ : String
  element_id : Option ℤ
  tags : Tags
deriving DecidableEq

/-- Python or-chaining over optional strings: an absent key or an empty
(falsy) value falls through to the next candidate. -/
def pyOrStr (v : Option String) (fallback : String) : String :=
  match v with
  | some s => if s = "" then fallback else s
  | none => fallback

/-- The point-type resolution of process_node, the or-chain over amenity,
shop, tourism, historic, leisure with literal fallback "point". -/
def pointType (tags : Tags) : String :=
  pyOrStr (List.lookup "amenity" tags)
    (pyOrStr (List.lookup "shop" tags)
      (pyOrStr (List.lookup "tourism" tags)
        (pyOrStr (List.lookup "historic" tags)
          (pyOrStr (List.lookup "leisure" tags) "point"))))

/-- process_node of utils/data_processing.py: none when the node carries no
tags (the source returns without appending), else the appended point dict.
The lat and lon defaults are never read on the call path, which guards on
their presence. -/
def process_node (el : OSMElement) : Option PointF :=
  if el.tags.isEmpty then none
  else
    let point_type := pointType el.tags
    some { coordinates := ((el.lon?).getD 0, (el.lat?).getD 0),
           name := (List.lookup "name" el.tags).getD (pyCapitalize point_type),
           type_ := point_type,
           element_id := el.id?,
           tags := el.tags }

/-- The coordinate list a way derives from its geometry array: entries
carrying both lat and lon, as [lon, lat] pairs. -/
def wayCoords (el : OSMElement) : List Coord :=
  el.geometry.filterMap (fun p =>
    match p.lat?, p.lon? with
    | some la, some lo => some (lo, la)
    | _, _ => none)

/-- process_building of utils/data_processing.py: appends the building dict
to the buildings list. -/
def process_building (el : OSMElement) (coords : List Coord)
    (buildings : List BuildingF) (building_height_factor : ℚ) : List BuildingF :=
  buildings ++
    [{ coordinates := coords,
       name := (List.lookup "name" el.tags).getD "Building",
       height := estimate_building_height el.tags building_height_factor,
       element_id := el.id?,
       color := get_building_color el.tags,
       tags := el.tags }]

/-- process_road of utils/data_processing.py: appends the road dict to the
roads list. -/
def process_road (el : OSMElement) (coords : List Coord)
    (roads : List RoadF) : List RoadF :=
  let highway_type := (List.lookup "highway" el.tags).getD "road"
  roads ++
    [{ coordinates := coords,
       name := (List.lookup "name" el.tags).getD (pyCapitalize highway_type),
       width := get_road_width highway_type,
       element_id := el.id?,
       type_ := highway_type,
       tags := el.tags }]

/-- The polygon-type resolution of process_polygon: landuse, then natural,
then leisure, else "other" (Python or-chain). -/
def polygonType (tags : Tags) : String :=
  pyOrStr (List.lookup "landuse" tags)
    (pyOrStr (List.lookup "natural" tags)
      (pyOrStr (List.lookup "leisure" tags) "other"))

/-- process_polygon of utils/data_processing.py: appends the polygon dict
to the polygons list. -/
def process_polygon (el : OSMElement) (coords : List Coord)
    (polygons : List PolygonF) : List PolygonF :=
  let polygon_type := polygonType el.tags
  polygons ++
    [{ coordinates := coords,
       name := (List.lookup "name" el.tags).getD (pyCapitalize polygon_type ++ " Area"),
       type_ := polygon_type,
       element_id := el.id?,
       tags := el.tags }]

/-- process_way of utils/data_processing.py: skip when no coordinates,
else the building / highway / closed-ring cascade; an open way with no
recognized tag appends nothing. -/
def process_way (el : OSMElement) (buildings : List BuildingF)
    (roads : List RoadF) (polygons : List PolygonF)
    (building_height_factor : ℚ) :
    List BuildingF × List RoadF × List PolygonF :=
  let coords := wayCoords el
  if coords.isEmpty then (buildings, roads, polygons)
  else if hasTag el.tags "building" then
    (process_building el coords buildings building_height_factor, roads, polygons)
  else if hasTag el.tags "highway" then
    (buildings, process_road el coords roads, polygons)
  else if ¬ el.geometry.isEmpty ∧ coords.head? = coords.getLast? then
    (buildings, roads, process_polygon el coords polygons)
  else (buildings, roads, polygons)

/-- The feature lists process_overpass_results accumulates. -/
structure ProcState where
  buildings : List BuildingF
  roads : List RoadF
  points : List PointF
  polygons : List PolygonF
deriving DecidableEq

/-- The empty accumulator. -/
def ProcState.empty : ProcState := ⟨[], [], [], []⟩

/-- The per-element dispatch of process_overpass_results: a node with lat
and lon goes to process_node, a way carrying a nodes key goes to
process_way, a relation is recognized but produces nothing, anything else
is skipped. -/
def processElement (building_height_factor : ℚ) (st : ProcState)
    (el : OSMElement) : ProcState :=
  if el.type_ = "node" ∧ el.lat?.isSome ∧ el.lon?.isSome then
    match process_node el with
    | some p => { st with points := st.points ++ [p] }
    | none => st
  else if el.type_ = "way" ∧ el.nodes?.isSome then
    let r := process_way el st.buildings st.roads st.polygons building_height_factor
    { st with buildings := r.1, roads := r.2.1, polygons := r.2.2 }
  else st

/-- The processed result dict of process_overpass_results. -/
structure ProcessedData where
  buildings : List BuildingF
  roads : List RoadF
  points : List PointF
  polygons : List PolygonF
  terrain_elevation : ℚ
deriving DecidableEq

/-- process_overpass_results of utils/data_processing.py. The input none
stands for a falsy response or one with no elements key. After
classification, when buildings exist their flattened ring coordinates
(capped at 100) are sent to the elevation service and the mean becomes the
terrain elevation (the all() guard of the source is always true, since
every [lon, lat] pair is a truthy nonempty list). -/
def process_overpass_results (fetch : List Coord → Option (List ℚ))
    (cache : Coord → Option ℚ) (building_height_factor : ℚ)
    (data : Option (List OSMElement)) : Option ProcessedData :=
  match data with
  | none => none
  | some elements =>
    let elements :=
      if elements.length > MAX_FEATURES then elements.take MAX_FEATURES
      else elements
    let st := elements.foldl (processElement building_height_factor) ProcState.empty
    let terrain_elevation :=
      if st.buildings.isEmpty then (0 : ℚ)
      else
        let all_coords := (st.buildings.map (fun b => b.coordinates)).flatten
        let elevations :=
          get_elevation_data fetch cache MAX_ELEVATION_POINTS (all_coords.take 100)
        if elevations.isEmpty then (0 : ℚ)
        else elevations.sum / (elevations.length : ℚ)
    some { buildings := st.buildings, roads := st.roads, points := st.points,
           polygons := st.polygons, terrain_elevation := terrain_elevation }

/-! ## Color scale utilities (utils/visualization.py) -/

/-- An RGB anchor color row (the numpy arrays hold integer rows). -/
structure RGB where
  r : ℤ
  g : ℤ
  b : ℤ
deriving DecidableEq

/-- The Python builtin int() on a float: truncation toward zero. -/
def pyInt (q : ℚ) : ℤ :=
  if 0 ≤ q then ⌊q⌋ else -⌊-q⌋

/-- One channel of the linear interpolation of get_color_for_value,
converted to integer with int(). -/
def lerpChan (weight : ℚ) (a b : ℤ) : ℤ :=
  pyInt ((1 - weight) * a + weight * b)

/-- The normalize-and-clamp step of get_color_for_value: mid-scale 0.5 for
a degenerate range, else (value - min)/(max - min), clamped to [0, 1]. -/
def clampedNorm (value min_value max_value : ℚ) : ℚ :=
  let value_range := max_value - min_value
  let normalized := if value_range = 0 then (1 : ℚ)/2 else (value - min_value)/value_range
  max 0 (min 1 normalized)

/-- The anchor interpolation step of get_color_for_value at a clamped
position in [0, 1]: index scaling, truncating lower index, clamped upper
index, linear channel interpolation, fixed alpha 255. Indexing is total
through getD; the source would raise on an empty color array, which no call
site passes. -/
def colorAt (colors : List RGB) (normalized : ℚ) : List ℤ :=
  let color_index := normalized * ((colors.length - 1 : ℕ) : ℚ)
  let lower_idx := (pyInt color_index).toNat
  let upper_idx := min (lower_idx + 1) (colors.length - 1)
  let weight := color_index - (lower_idx : ℚ)
  let cl := colors.getD lower_idx ⟨0, 0, 0⟩
  let cu := colors.getD upper_idx ⟨0, 0, 0⟩
  [lerpChan weight cl.r cu.r, lerpChan weight cl.g cu.g,
   lerpChan weight cl.b cu.b, 255]

/-- get_color_for_value of utils/visualization.py. -/
def get_color_for_value (value min_value max_value : ℚ)
    (colors : List RGB) : List ℤ :=
  colorAt colors (clampedNorm value min_value max_value)

/-- The RGBA output shape [r, g, b, 255] for an anchor color. -/
def rgbaOut (c : RGB) : List ℤ :=
  [c.r, c.g, c.b, 255]

/-- The default blue-to-red anchor list of generate_color_scale. -/
def default_color_range : List RGB :=
  [⟨65, 105, 225⟩, ⟨100, 149, 237⟩, ⟨135, 206, 250⟩, ⟨176, 224, 230⟩,
   ⟨255, 255, 255⟩, ⟨255, 228, 196⟩, ⟨255, 165, 0⟩, ⟨255, 69, 0⟩,
   ⟨255, 0, 0⟩]

/-- The color scale record generate_color_scale returns: bounds, anchors,
the normalize closure and the color lookup closure. -/
structure ColorScale where
  min_value : ℚ
  max_value : ℚ
  colors : List RGB
  normalize : ℚ → ℚ
  get_color : ℚ → List ℤ

/-- generate_color_scale of utils/visualization.py: a None color range
falls back to the default palette; a zero value range is replaced by 1 to
avoid division by zero; normalize divides the offset by the value range
(with no clamping); get_color closes over get_color_for_value. -/
def generate_color_scale (min_value max_value : ℚ)
    (color_range : Option (List RGB)) : ColorScale :=
  let colors := color_range.getD default_color_range
  let value_range₀ := max_value - min_value
  let value_range := if value_range₀ = 0 then 1 else value_range₀
  { min_value := min_value,
    max_value := max_value,
    colors := colors,
    normalize := fun x => (x - min_value) / value_range,
    get_color := fun x => get_color_for_value x min_value max_value colors }

/-! ## Geospatial data models (models/geo_data.py) -/

namespace GeoData

/-- Coordinate of models/geo_data.py. -/
structure Coordinate where
  lon : ℚ
  lat : ℚ
deriving DecidableEq

/-- Building feature dataclass (GeoFeature fields inlined). -/
structure Building where
  id : String
  name : String
  feature_type : String
  tags : Tags
  coordinates : List Coordinate
  height : ℚ
  color : List ℤ
deriving DecidableEq

/-- Road feature dataclass (GeoFeature fields inlined). -/
structure Road where
  id : String
  name : String
  feature_type : String
  tags : Tags
  coordinates : List Coordinate
  width : ℚ
deriving DecidableEq

/-- Point feature dataclass (GeoFeature fields inlined). -/
structure Point where
  id : String
  name : String
  feature_type : String
  tags : Tags
  coordinate : Coordinate
deriving DecidableEq

/-- Polygon feature dataclass (GeoFeature fields inlined). -/
structure Polygon where
  id : String
  name : String
  feature_type : String
  tags : Tags
  coordinates : List Coordinate
deriving DecidableEq

/-- GeoDataCollection of models/geo_data.py. -/
structure GeoDataCollection where
  buildings : List Building
  roads : List Road
  points : List Point
  polygons : List Polygon
  terrain_elevation : ℚ
deriving DecidableEq

/-- The matches_tags helper of filter_by_tags: every requested key must be
present in the feature tags with exactly the requested value. -/
def matches_tags (tags : Tags) (feature_tags : Tags) : Bool :=
  tags.all (fun kv => List.lookup kv.1 feature_tags == some kv.2)

/-- GeoDataCollection.filter_by_tags: a new collection keeping exactly the
features whose tags match every requested pair, with the terrain elevation
carried over. -/
def GeoDataCollection.filter_by_tags (c : GeoDataCollection) (tags : Tags) :
    GeoDataCollection :=
  { buildings := c.buildings.filter (fun b => matches_tags tags b.tags),
    roads := c.roads.filter (fun r => matches_tags tags r.tags),
    points := c.points.filter (fun p => matches_tags tags p.tags),
    polygons := c.polygons.filter (fun p => matches_tags tags p.tags),
    terrain_elevation := c.terrain_elevation }

end GeoData

/-! ## Overpass retry loop (services/overpass_service.py)

The attempts are a function from the attempt index (the value of the
retries counter just before the request) to the observed outcome. The
query cache is bypassed (empty-cache behavior of a first call). The model
returns the final result, the list of the sleep durations in seconds, and
the number of requests made. The 429 handler of the source runs
int(headers.get("Retry-After", 2 ** retries)) and then time.sleep on the
result inside the except block with nothing catching a ValueError, so a
present header that is not an integer string, or one that parses to a
negative number fed to time.sleep, raises out of query_overpass; the model
keeps the header as the raw string and carries that raise path. -/

/-- Models the Python builtin int() on a string: surrounding whitespace
stripped, optional sign, decimal digits. A non-integer Retry-After header
(an HTTP-date, for instance) raises ValueError in the source and parses
to none here. Underscore digit grouping is out of scope as with
pyFloat?. -/
def pyIntStr? (s : String) : Option ℤ :=
  match trimChars s.toList with
  | '+' :: rest => (parseNatDigits? rest).map (fun n => (n : ℤ))
  | '-' :: rest => (parseNatDigits? rest).map (fun n => -(n : ℤ))
  | t => (parseNatDigits? t).map (fun n => (n : ℤ))

/-- One observed outcome of a request in query_overpass: a parsed JSON
payload, a timeout, an HTTP error with its status and the raw Retry-After
header when present, or any other exception raised by the request. -/
inductive OverpassResp (α : Type) where
  | ok (data : α)
  | timeout
  | httpError (status : ℕ) (retryAfter : Option String)
  | otherError
deriving DecidableEq

/-- How a call to query_overpass ends: a normal return (some data or
None), or an uncaught exception propagating out of the function. -/
inductive QueryResult (α : Type) where
  | returns (data : Option α)
  | raises
deriving DecidableEq

/-- The while loop of query_overpass, fuelled (the retries counter
strictly increases on every continuing path, so fuel maxRetries + 1
suffices). Timeout: increment, sleep 2 ^ retries when more attempts
remain. HTTP 429: increment; when more attempts remain, feed the
Retry-After header (or the integer default 2 ^ retries) to int() and
sleep the result — a header that does not parse as an integer, or a
negative sleep argument, raises ValueError out of the loop. Any other
HTTP error or exception: return None at once. Exhausted counter: None. -/
def queryLoop {α : Type} (resp : ℕ → OverpassResp α) (maxRetries : ℕ) :
    ℕ → ℕ → QueryResult α × List ℕ × ℕ
  | 0, _ => (QueryResult.returns none, [], 0)
  | fuel + 1, retries =>
    if retries < maxRetries then
      match resp retries with
      | .ok d => (QueryResult.returns (some d), [], 1)
      | .timeout =>
        let r := retries + 1
        let rest := queryLoop resp maxRetries fuel r
        (rest.1, (if r < maxRetries then [2 ^ r] else []) ++ rest.2.1, rest.2.2 + 1)
      | .httpError s retryAfter =>
        if s = 429 then
          let r := retries + 1
          if r < maxRetries then
            match (match retryAfter with
                   | none => some ((2 : ℤ) ^ r)
                   | some hdr => pyIntStr? hdr) with
            | none => (QueryResult.raises, [], 1)
            | some v =>
              if v < 0 then (QueryResult.raises, [], 1)
              else
                let rest := queryLoop resp maxRetries fuel r
                (rest.1, v.toNat :: rest.2.1, rest.2.2 + 1)
          else
            let rest := queryLoop resp maxRetries fuel r
            (rest.1, rest.2.1, rest.2.2 + 1)
        else (QueryResult.returns none, [], 1)
      | .otherError => (QueryResult.returns none, [], 1)
    else (QueryResult.returns none, [], 0)

/-- query_overpass of services/overpass_service.py, on a cold cache. -/
def query_overpass {α : Type} (resp : ℕ → OverpassResp α) (maxRetries : ℕ) :
    QueryResult α × List ℕ × ℕ :=
  queryLoop resp maxRetries (maxRetries + 1) 0

/-! ## Spec-side definitions and concrete elements used by the theorems -/

/-- The or-chain of pyOrStr steps over an explicit key list, used to relate
the nested or-expressions of the source to an explicit priority order. -/
def orChain (tags : Tags) : List String → String → String
  | [], fb => fb
  | k :: ks, fb => pyOrStr (List.lookup k tags) (orChain tags ks fb)

/-- The node type priority rule as amended: the first key of the priority
order whose value is present and non-empty wins; a key present with an
empty (falsy) value is skipped; the fallback is the literal "point". -/
def spec_pointType (tags : Tags) : String :=
  (["amenity", "shop", "tourism", "historic", "leisure"].findSome?
    (fun k => (List.lookup k tags).bind
      (fun v => if v = "" then none else some v))).getD "point"

/-- A way element tagged both building and highway, with a closed ring. -/
def exBuildingWay : OSMElement :=
  { type_ := "way", id? := some 101,
    tags := [("building", "yes"), ("highway", "primary")],
    lat? := none, lon? := none, nodes? := some [1, 2, 3, 1],
    geometry := [⟨some 0, some 0⟩, ⟨some 0, some 1⟩, ⟨some 1, some 1⟩,
                 ⟨some 0, some 0⟩] }

/-- A node tagged with both amenity and shop. -/
def exCafeNode : OSMElement :=
  { type_ := "node", id? := some 5,
    tags := [("amenity", "cafe"), ("shop", "bakery")],
    lat? := some 1, lon? := some 2, nodes? := none, geometry := [] }

/-- A node whose amenity value is the empty string. -/
def exEmptyAmenityNode : OSMElement :=
  { type_ := "node", id? := some 7,
    tags := [("amenity", ""), ("shop", "bakery")],
    lat? := some 1, lon? := some 2, nodes? := none, geometry := [] }

/-- A way element with a non-empty closed geometry but no nodes key. -/
def exWayNoNodes : OSMElement :=
  { type_ := "way", id? := some 11,
    tags := [("building", "yes")],
    lat? := none, lon? := none, nodes? := none,
    geometry := [⟨some 0, some 0⟩, ⟨some 0, some 1⟩, ⟨some 1, some 1⟩,
                 ⟨some 0, some 0⟩] }

/-- The same way element with a nodes key present. -/
def exWayWithNodes : OSMElement :=
  { type_ := "way", id? := some 11,
    tags := [("building", "yes")],
    lat? := none, lon? := none, nodes? := some [1, 2, 3, 1],
    geometry := [⟨some 0, some 0⟩, ⟨some 0, some 1⟩, ⟨some 1, some 1⟩,
                 ⟨some 0, some 0⟩] }

/-! ## Theorems -/

/-- C1: estimate_building_height follows the ordered fallback chain: a
parsed height tag (leading numeric token, unit discarded) times the factor;
else parsed building:levels times 3 times the factor; else the base height
table entry for the building tag value (8 when unrecognized) times the
factor. Concretely: height "12.5 m" with factor 2 gives 25; building
"office" with no height and levels gives 15 times the factor; levels "4"
gives 12 times the factor. -/
theorem estimate_building_height_fallback_chain (tags : Tags) (f : ℚ) :
    (∀ h, parseHeightTag? tags = some h → estimate_building_height tags f = h * f)
    ∧ (parseHeightTag? tags = none → ∀ l, parseLevelsTag? tags = some l →
        estimate_building_height tags f = l * 3 * f)
    ∧ (parseHeightTag? tags = none → parseLevelsTag? tags = none →
        estimate_building_height tags f =
          ((List.lookup ((List.lookup "building" tags).getD "yes")
            base_heights).getD 8) * f)
    ∧ estimate_building_height [("building", "yes"), ("height", "12.5 m")] 2 = 25
    ∧ estimate_building_height [("building", "office")] f = 15 * f
    ∧ estimate_building_height [("building", "yes"), ("building:levels", "4")] f
        = 12 * f := by
  refine ⟨?_, ?_, ?_, ?_, ?_, ?_⟩
  · intro h hh
    unfold estimate_building_height
    rw [hh]
  · intro h0 l hl
    unfold estimate_building_height
    rw [h0, hl]
  · intro h0 h1
    unfold estimate_building_height
    rw [h0, h1]
  · rw [show estimate_building_height [("building", "yes"), ("height", "12.5 m")] 2
        = (((12 : ℕ) : ℚ) + ((5 : ℕ) : ℚ) / 10 ^ 1) * 2 from rfl]
    norm_num
  · rfl
  · rw [show estimate_building_height [("building", "yes"), ("building:levels", "4")] f
        = ((4 : ℕ) : ℚ) * 3 * f from rfl]
    norm_num

/-- C2: for a way with a non-empty derived coordinate sequence exactly one
branch fires, in order: building tag present gives a Building (even when
highway is also present); else highway gives a Road; else a closed
sequence gives a Polygon; else nothing is appended. -/
theorem process_way_classification (el : OSMElement) (b : List BuildingF)
    (r : List RoadF) (p : List PolygonF) (f : ℚ)
    (hc : wayCoords el ≠ []) :
    (hasTag el.tags "building" = true →
        process_way el b r p f = (process_building el (wayCoords el) b f, r, p))
    ∧ (hasTag el.tags "building" = false → hasTag el.tags "highway" = true →
        process_way el b r p f = (b, process_road el (wayCoords el) r, p))
    ∧ (hasTag el.tags "building" = false → hasTag el.tags "highway" = false →
        (wayCoords el).head? = (wayCoords el).getLast? →
        process_way el b r p f = (b, r, process_polygon el (wayCoords el) p))
    ∧ (hasTag el.tags "building" = false → hasTag el.tags "highway" = false →
        (wayCoords el).head? ≠ (wayCoords el).getLast? →
        process_way el b r p f = (b, r, p)) := by
  have hg : el.geometry.isEmpty = false := by
    rcases hgeo : el.geometry with _ | ⟨a, l⟩
    · exact absurd (by simp [wayCoords, hgeo]) hc
    · rfl
  have hce : (wayCoords el).isEmpty = false := by
    rcases hwc : wayCoords el with _ | ⟨a, l⟩
    · exact absurd hwc hc
    · rfl
  refine ⟨?_, ?_, ?_, ?_⟩
  · intro hb
    simp [process_way, hce, hb]
  · intro hb hh
    simp [process_way, hce, hb, hh]
  · intro hb hh hcl
    simp [process_way, hce, hb, hh, hcl, hg]
  · intro hb hh hcl
    simp [process_way, hce, hb, hh, hcl]

/-- Witness for C2 at a way tagged both building and highway: the building
branch fires. -/
theorem process_way_classification_witness :
    process_way exBuildingWay [] [] [] 1
      = (process_building exBuildingWay (wayCoords exBuildingWay) [] 1, [], []) :=
  (process_way_classification exBuildingWay [] [] [] 1 (by decide)).1 (by decide)

/-- A way element without a nodes key is skipped by the element dispatch,
whatever its geometry. -/
theorem processElement_way_no_nodes (st : ProcState) (el : OSMElement) (f : ℚ)
    (ht : el.type_ = "way") (hn : el.nodes? = none) :
    processElement f st el = st := by
  simp [processElement, ht, hn]

/-- C10: a way element whose mapping lacks a nodes key produces no feature
at all, even though the coordinates used come from the geometry field: the
same element with a nodes key present produces a building, and the full
pipeline on the nodes-less way returns an empty result. -/
theorem way_without_nodes_is_dropped :
    (∀ (st : ProcState) (el : OSMElement) (f : ℚ),
        el.type_ = "way" → el.nodes? = none → processElement f st el = st)
    ∧ processElement 1 ProcState.empty exWayNoNodes = ProcState.empty
    ∧ (processElement 1 ProcState.empty exWayWithNodes).buildings.length = 1
    ∧ process_overpass_results (fun _ => none) (fun _ => none) 1
        (some [exWayNoNodes]) = some ⟨[], [], [], [], 0⟩ := by
  refine ⟨processElement_way_no_nodes, ?_, ?_, ?_⟩
  · exact processElement_way_no_nodes _ _ _ rfl rfl
  · decide
  · have h3 : processElement 1 (⟨[], [], [], []⟩ : ProcState) exWayNoNodes
        = (⟨[], [], [], []⟩ : ProcState) :=
      processElement_way_no_nodes _ _ _ rfl rfl
    simp [process_overpass_results, MAX_FEATURES, ProcState.empty, h3]

/-- The or-chain of the source equals the first non-empty value over an
explicit ordered key list. -/
theorem orChain_eq_findSome (tags : Tags) (keys : List String) (fb : String) :
    orChain tags keys fb =
      (keys.findSome? (fun k => (List.lookup k tags).bind
        (fun v => if v = "" then none else some v))).getD fb := by
  induction keys with
  | nil => rfl
  | cons k ks ih =>
    rw [orChain]
    cases h : List.lookup k tags with
    | none => simp [pyOrStr, h, ih, List.findSome?]
    | some v =>
      by_cases hv : v = ""
      · simp [pyOrStr, h, hv, ih, List.findSome?]
      · simp [pyOrStr, h, hv, List.findSome?]

/-- C4 (amended): the node type is the value of the first key of the
priority order amenity, shop, tourism, historic, leisure whose value is
present and non-empty, with fallback "point"; a node tagged amenity cafe
and shop bakery gets type cafe. -/
theorem process_node_type_priority :
    (∀ tags : Tags, pointType tags = spec_pointType tags)
    ∧ (∀ el : OSMElement, (process_node el).map (fun p => p.type_) =
        if el.tags.isEmpty then none else some (spec_pointType el.tags))
    ∧ (process_node exCafeNode).map (fun p => p.type_) = some "cafe" := by
  have hpt : ∀ tags : Tags, pointType tags = spec_pointType tags := by
    intro tags
    rw [show pointType tags
        = orChain tags ["amenity", "shop", "tourism", "historic", "leisure"] "point"
        from rfl, orChain_eq_findSome]
    rfl
  refine ⟨hpt, ?_, ?_⟩
  · intro el
    by_cases h : el.tags.isEmpty
    · simp [process_node, h]
    · simp [process_node, h, hpt]
  · decide

/-- C4 counterexample: with tags amenity empty and shop bakery, the first
present key of the priority order (amenity) does not win; the resolved
type is the shop value. -/
theorem process_node_priority_counterexample :
    (process_node exEmptyAmenityNode).map (fun p => p.type_) = some "bakery"
    ∧ List.lookup "amenity" exEmptyAmenityNode.tags = some ""
    ∧ ("bakery" : String) ≠ "" :=
  ⟨by decide, by decide, by decide⟩

/-- Downsampling yields min of the input length and the cap. -/
theorem elevDownsample_length (m : ℕ) (coords : List Coord) :
    (elevDownsample m coords).length = min coords.length m := by
  unfold elevDownsample
  by_cases h : coords.length > m
  · rw [if_pos h]
    simp [linspaceIdx]
    omega
  · rw [if_neg h]
    omega

/-- The update fold keeps the slot list length. -/
theorem applyElevUpdates_length (updates : List (ℕ × ℚ))
    (elevs : List (Option ℚ)) :
    (applyElevUpdates elevs updates).length = elevs.length := by
  induction updates generalizing elevs with
  | nil => rfl
  | cons u us ih =>
    rw [show applyElevUpdates elevs (u :: us)
        = applyElevUpdates (elevs.set u.1 (some u.2)) us from rfl, ih]
    exact List.length_set elevs u.1 (some u.2)

/-- With a failing provider, every downsampled slot is the cached value or
zero, in input order. -/
theorem get_elevation_data_fail_eq (cache : Coord → Option ℚ) (m : ℕ)
    (coords : List Coord) :
    get_elevation_data (fun _ => none) cache m coords =
      (elevDownsample m coords).map (fun c => (cache c).getD 0) := by
  unfold get_elevation_data
  by_cases he : coords.isEmpty
  · rw [if_pos he]
    have hnil : coords = [] := by
      cases coords with
      | nil => rfl
      | cons a l => simp at he
    subst hnil
    simp [elevDownsample]
  · rw [if_neg he]
    by_cases hf : (elevRequest cache m coords).isEmpty
    · simp [hf, List.map_map, Function.comp]
    · simp [hf, List.map_map, Function.comp]

/-- The result length is the downsampled length for every provider and
cache. -/
theorem get_elevation_data_length (fetch : List Coord → Option (List ℚ))
    (cache : Coord → Option ℚ) (m : ℕ) (coords : List Coord) :
    (get_elevation_data fetch cache m coords).length = min coords.length m := by
  unfold get_elevation_data
  by_cases he : coords.isEmpty
  · rw [if_pos he]
    have hnil : coords = [] := by
      cases coords with
      | nil => rfl
      | cons a l => simp at he
    subst hnil
    simp
  · rw [if_neg he]
    by_cases hf : (elevRequest cache m coords).isEmpty
    · simp [hf, elevDownsample_length]
    · cases hres : fetch (elevRequest cache m coords) with
      | none => simp [hf, hres, elevDownsample_length]
      | some results =>
        simp [hf, hres, applyElevUpdates_length, elevDownsample_length]

/-- C3 (amended): the result keeps the length and order of the downsampled
input, which is the input itself when no longer than the cap (default 100)
and has length min(input length, cap) otherwise; with an always-failing
provider every uncached slot is 0 and with an empty cache the result is
all zeros; the operation is total (never raises). -/
theorem get_elevation_data_degrades_to_zeros :
    (∀ (cache : Coord → Option ℚ) (m : ℕ) (coords : List Coord),
        get_elevation_data (fun _ => none) cache m coords =
          (elevDownsample m coords).map (fun c => (cache c).getD 0))
    ∧ (∀ (fetch : List Coord → Option (List ℚ)) (cache : Coord → Option ℚ)
          (m : ℕ) (coords : List Coord),
        (get_elevation_data fetch cache m coords).length = min coords.length m)
    ∧ (∀ (m : ℕ) (coords : List Coord),
        get_elevation_data (fun _ => none) (fun _ => none) m coords =
          List.replicate (min coords.length m) 0) := by
  refine ⟨get_elevation_data_fail_eq, get_elevation_data_length, ?_⟩
  intro m coords
  rw [get_elevation_data_fail_eq, ← elevDownsample_length m coords]
  induction elevDownsample m coords with
  | nil => rfl
  | cons a t ih => simp [ih, List.replicate_succ]

/-- C3 counterexample: 101 coordinates with a failing provider and empty
cache give 100 elevations, not 101 — the result length is not the input
length. -/
theorem get_elevation_data_not_input_length :
    (get_elevation_data (fun _ => none) (fun _ => none) MAX_ELEVATION_POINTS
        (List.replicate 101 ((0 : ℚ), (0 : ℚ)))).length = 100
    ∧ (List.replicate 101 ((0 : ℚ), (0 : ℚ))).length = 101 := by
  constructor
  · rw [get_elevation_data_length]
    simp [MAX_ELEVATION_POINTS]
  · simp

/-- The k-th linspace index is the truncation of k(n-1)/(m-1). -/
theorem linspaceIdx_getD (n m k : ℕ) (hk : k < m) :
    (linspaceIdx n m).getD k 0 = k * (n - 1) / (m - 1) := by
  unfold linspaceIdx
  rw [List.getD_eq_getElem?_getD, List.getElem?_map, List.getElem?_range hk]
  rfl

/-- C5: downsampling past the cap selects, by index, m entries spread over
the whole span: the first index is 0, the last is n-1, the indices are
strictly increasing, the selected coordinates are read at those indices,
and with an empty cache that selection is exactly what is requested from
the provider; for 250 inputs and cap 100 the selection is not the first
100 indices and ends at index 249. -/
theorem elevation_downsample_even_selection (n m : ℕ) (hm : 2 ≤ m)
    (hn : m < n) :
    (linspaceIdx n m).length = m
    ∧ (linspaceIdx n m).getD 0 0 = 0
    ∧ (linspaceIdx n m).getD (m - 1) 0 = n - 1
    ∧ (∀ k, k + 1 < m →
        (linspaceIdx n m).getD k 0 < (linspaceIdx n m).getD (k + 1) 0)
    ∧ (∀ coords : List Coord, coords.length = n →
        elevDownsample m coords =
          (linspaceIdx n m).map (fun i => coords.getD i (0, 0)))
    ∧ (∀ coords : List Coord,
        elevRequest (fun _ => none) m coords = elevDownsample m coords)
    ∧ linspaceIdx 250 100 ≠ List.range 100
    ∧ (linspaceIdx 250 100).getD 99 0 = 249 := by
  refine ⟨by simp [linspaceIdx], ?_, ?_, ?_, ?_, ?_, by decide, by decide⟩
  · rw [linspaceIdx_getD n m 0 (by omega)]
    simp
  · rw [linspaceIdx_getD n m (m - 1) (by omega)]
    exact Nat.mul_div_cancel_left _ (by omega)
  · intro k hk
    rw [linspaceIdx_getD n m k (by omega), linspaceIdx_getD n m (k + 1) hk]
    have hd : 0 < m - 1 := by omega
    have hexp : (k + 1) * (n - 1) = k * (n - 1) + (n - 1) := by ring
    calc k * (n - 1) / (m - 1)
        < k * (n - 1) / (m - 1) + 1 := Nat.lt_succ_self _
      _ = (k * (n - 1) + (m - 1)) / (m - 1) := (Nat.add_div_right _ hd).symm
      _ ≤ (k + 1) * (n - 1) / (m - 1) := Nat.div_le_div_right (by omega)
  · intro coords hc
    unfold elevDownsample
    rw [hc, if_pos hn]
  · intro coords
    simp [elevRequest, List.filter_true]

/-- Witness for C5 at 250 coordinates and cap 100. -/
theorem elevation_downsample_even_selection_witness :
    (linspaceIdx 250 100).length = 100
    ∧ (linspaceIdx 250 100).getD (100 - 1) 0 = 250 - 1 :=
  ⟨(elevation_downsample_even_selection 250 100 (by norm_num) (by norm_num)).1,
   (elevation_downsample_even_selection 250 100 (by norm_num)
     (by norm_num)).2.2.1⟩

/-- Truncation of an integer value is the integer itself. -/
theorem pyInt_intCast (a : ℤ) : pyInt (a : ℚ) = a := by
  unfold pyInt
  by_cases h : (0 : ℚ) ≤ (a : ℚ)
  · rw [if_pos h, Int.floor_intCast]
  · rw [if_neg h, ← Int.cast_neg, Int.floor_intCast]
    ring

/-- Interpolating with weight 0 returns the lower anchor channel. -/
theorem lerpChan_zero (a b : ℤ) : lerpChan 0 a b = a := by
  unfold lerpChan
  rw [show ((1 : ℚ) - 0) * a + 0 * b = (a : ℚ) by ring]
  exact pyInt_intCast a

/-- At clamped position 0, get_color_for_value returns the first anchor. -/
theorem colorAt_zero (colors : List RGB) :
    colorAt colors 0 = rgbaOut (colors.getD 0 ⟨0, 0, 0⟩) := by
  have h0 : pyInt 0 = 0 := by
    unfold pyInt
    simp
  simp [colorAt, rgbaOut, h0, lerpChan_zero]

/-- At clamped position 1, get_color_for_value returns the last anchor. -/
theorem colorAt_one (colors : List RGB) :
    colorAt colors 1 = rgbaOut (colors.getD (colors.length - 1) ⟨0, 0, 0⟩) := by
  have hpn : pyInt ((colors.length - 1 : ℕ) : ℚ) = ((colors.length - 1 : ℕ) : ℤ) := by
    unfold pyInt
    rw [if_pos (by positivity), Int.floor_natCast]
  simp [colorAt, rgbaOut, hpn, lerpChan_zero, Int.toNat_natCast]

/-- The clamped normalization at the left endpoint of a proper domain. -/
theorem clampedNorm_min (mn mx : ℚ) (h : mn < mx) : clampedNorm mn mn mx = 0 := by
  simp only [clampedNorm]
  have hne : mx - mn ≠ 0 := sub_ne_zero.mpr (ne_of_gt h)
  rw [if_neg hne]
  norm_num

/-- The clamped normalization at the right endpoint of a proper domain. -/
theorem clampedNorm_max (mn mx : ℚ) (h : mn < mx) : clampedNorm mx mn mx = 1 := by
  simp only [clampedNorm]
  have hne : mx - mn ≠ 0 := sub_ne_zero.mpr (ne_of_gt h)
  rw [if_neg hne, div_self hne]
  norm_num

/-- Values above the domain clamp to position 1. -/
theorem clampedNorm_above (mn mx v : ℚ) (h : mn < mx) (hv : mx < v) :
    clampedNorm v mn mx = 1 := by
  simp only [clampedNorm]
  have hp : (0 : ℚ) < mx - mn := sub_pos.mpr h
  rw [if_neg (ne_of_gt hp)]
  have h1 : (1 : ℚ) ≤ (v - mn) / (mx - mn) := by
    rw [le_div_iff₀ hp]
    linarith
  rw [min_eq_left h1]
  exact max_eq_right (by norm_num)

/-- Values below the domain clamp to position 0. -/
theorem clampedNorm_below (mn mx v : ℚ) (h : mn < mx) (hv : v < mn) :
    clampedNorm v mn mx = 0 := by
  simp only [clampedNorm]
  have hp : (0 : ℚ) < mx - mn := sub_pos.mpr h
  rw [if_neg (ne_of_gt hp)]
  have h1 : (v - mn) / (mx - mn) ≤ 0 := by
    apply div_nonpos_of_nonpos_of_nonneg
    · linarith
    · exact le_of_lt hp
  rw [min_eq_right (le_trans h1 (by norm_num))]
  exact max_eq_left h1

/-- A degenerate domain normalizes every value to the mid position. -/
theorem clampedNorm_degenerate (m v : ℚ) : clampedNorm v m m = 1 / 2 := by
  simp only [clampedNorm]
  rw [if_pos (sub_self m)]
  rw [min_eq_right (by norm_num)]
  exact max_eq_right (by norm_num)

/-- C6: over a proper domain, the color at the minimum is the first anchor
with alpha 255, the color at the maximum is the last anchor with alpha 255,
values above (below) the domain clamp to the last (first) anchor, and over
a degenerate domain every value is treated as the mid position 0.5. -/
theorem get_color_for_value_boundaries (colors : List RGB) :
    (∀ mn mx : ℚ, mn < mx →
        get_color_for_value mn mn mx colors = rgbaOut (colors.getD 0 ⟨0, 0, 0⟩))
    ∧ (∀ mn mx : ℚ, mn < mx →
        get_color_for_value mx mn mx colors =
          rgbaOut (colors.getD (colors.length - 1) ⟨0, 0, 0⟩))
    ∧ (∀ mn mx v : ℚ, mn < mx → mx < v →
        get_color_for_value v mn mx colors =
          rgbaOut (colors.getD (colors.length - 1) ⟨0, 0, 0⟩))
    ∧ (∀ mn mx v : ℚ, mn < mx → v < mn →
        get_color_for_value v mn mx colors = rgbaOut (colors.getD 0 ⟨0, 0, 0⟩))
    ∧ (∀ m v : ℚ, get_color_for_value v m m colors = colorAt colors (1 / 2)) := by
  refine ⟨?_, ?_, ?_, ?_, ?_⟩
  · intro mn mx h
    rw [get_color_for_value, clampedNorm_min mn mx h, colorAt_zero]
  · intro mn mx h
    rw [get_color_for_value, clampedNorm_max mn mx h, colorAt_one]
  · intro mn mx v h hv
    rw [get_color_for_value, clampedNorm_above mn mx v h hv, colorAt_one]
  · intro mn mx v h hv
    rw [get_color_for_value, clampedNorm_below mn mx v h hv, colorAt_zero]
  · intro m v
    rw [get_color_for_value, clampedNorm_degenerate]

/-- C7 counterexample: the normalize closure of generate_color_scale does
not clamp — on domain [0, 1] it maps 2 to 2, which is above 1. -/
theorem generate_color_scale_normalize_not_clamped :
    (generate_color_scale 0 1 none).normalize 2 = 2
    ∧ ¬ ((generate_color_scale 0 1 none).normalize 2 ≤ 1) := by
  have h : (generate_color_scale 0 1 none).normalize 2 = 2 := by
    show ((2 : ℚ) - 0) / (if (1 : ℚ) - 0 = 0 then 1 else (1 : ℚ) - 0) = 2
    norm_num
  refine ⟨h, ?_⟩
  rw [h]
  norm_num

/-- C7 (amended): the normalize closure divides the offset by the value
range (1 for a degenerate domain) with no clamping, so its result lies in
[0, 1] exactly when the value lies inside the domain. -/
theorem generate_color_scale_normalize_in_unit (mn mx x : ℚ)
    (cr : Option (List RGB)) (h1 : mn ≤ x) (h2 : x ≤ mx) :
    0 ≤ (generate_color_scale mn mx cr).normalize x
    ∧ (generate_color_scale mn mx cr).normalize x ≤ 1 := by
  have hdef : (generate_color_scale mn mx cr).normalize x
      = (x - mn) / (if mx - mn = 0 then 1 else mx - mn) := rfl
  rw [hdef]
  by_cases h : mx - mn = 0
  · have hx : x = mn := le_antisymm (by linarith [sub_eq_zero.mp h]) h1
    rw [if_pos h, hx]
    norm_num
  · rw [if_neg h]
    have hpos : (0 : ℚ) < mx - mn := by
      rcases lt_or_eq_of_le (sub_nonneg.mpr (le_trans h1 h2)) with hlt | heq
      · exact hlt
      · exact absurd heq.symm h
    constructor
    · apply div_nonneg
      · linarith
      · linarith
    · rw [div_le_one hpos]
      linarith

/-- Witness for C7 (amended) at domain [0, 10] and value 3. -/
theorem generate_color_scale_normalize_in_unit_witness :
    0 ≤ (generate_color_scale 0 10 none).normalize 3
    ∧ (generate_color_scale 0 10 none).normalize 3 ≤ 1 :=
  generate_color_scale_normalize_in_unit 0 10 3 none (by norm_num) (by norm_num)

/-- C8: filtering by an empty tag mapping returns a collection equal to the
input, and in general a feature is kept exactly when every requested
key-value pair is present verbatim among its tags (AND semantics), with
the terrain elevation carried over unchanged. -/
theorem filter_by_tags_and_semantics :
    (∀ c : GeoData.GeoDataCollection, c.filter_by_tags [] = c)
    ∧ (∀ (c : GeoData.GeoDataCollection) (tags : Tags) (b : GeoData.Building),
        b ∈ (c.filter_by_tags tags).buildings ↔
          b ∈ c.buildings ∧ ∀ kv ∈ tags, List.lookup kv.1 b.tags = some kv.2)
    ∧ (∀ (c : GeoData.GeoDataCollection) (tags : Tags) (r : GeoData.Road),
        r ∈ (c.filter_by_tags tags).roads ↔
          r ∈ c.roads ∧ ∀ kv ∈ tags, List.lookup kv.1 r.tags = some kv.2)
    ∧ (∀ (c : GeoData.GeoDataCollection) (tags : Tags) (p : GeoData.Point),
        p ∈ (c.filter_by_tags tags).points ↔
          p ∈ c.points ∧ ∀ kv ∈ tags, List.lookup kv.1 p.tags = some kv.2)
    ∧ (∀ (c : GeoData.GeoDataCollection) (tags : Tags) (p : GeoData.Polygon),
        p ∈ (c.filter_by_tags tags).polygons ↔
          p ∈ c.polygons ∧ ∀ kv ∈ tags, List.lookup kv.1 p.tags = some kv.2)
    ∧ (∀ (c : GeoData.GeoDataCollection) (tags : Tags),
        (c.filter_by_tags tags).terrain_elevation = c.terrain_elevation) := by
  refine ⟨?_, ?_, ?_, ?_, ?_, ?_⟩
  · intro c
    simp [GeoData.GeoDataCollection.filter_by_tags, GeoData.matches_tags]
  · intro c tags b
    simp [GeoData.GeoDataCollection.filter_by_tags, List.mem_filter,
      GeoData.matches_tags, List.all_eq_true]
  · intro c tags r
    simp [GeoData.GeoDataCollection.filter_by_tags, List.mem_filter,
      GeoData.matches_tags, List.all_eq_true]
  · intro c tags p
    simp [GeoData.GeoDataCollection.filter_by_tags, List.mem_filter,
      GeoData.matches_tags, List.all_eq_true]
  · intro c tags p
    simp [GeoData.GeoDataCollection.filter_by_tags, List.mem_filter,
      GeoData.matches_tags, List.all_eq_true]
  · intro c tags
    rfl

/-- When every attempted request within the retry budget meets a timeout
or a headerless 429 response, the loop exhausts the budget: None, one
request per remaining attempt. -/
theorem queryLoop_all_transient {α : Type} (resp : ℕ → OverpassResp α)
    (mr : ℕ) :
    ∀ (fuel retries : ℕ), mr ≤ retries + fuel →
      (∀ k, retries ≤ k → k < mr →
        resp k = OverpassResp.timeout ∨
          resp k = OverpassResp.httpError 429 none) →
      (queryLoop resp mr fuel retries).1 = QueryResult.returns none
        ∧ (queryLoop resp mr fuel retries).2.2 = mr - retries := by
  intro fuel
  induction fuel with
  | zero =>
    intro retries hle htr
    exact ⟨rfl, show (0 : ℕ) = mr - retries by omega⟩
  | succ fuel ih =>
    intro retries hle htr
    by_cases hrm : retries < mr
    · have hrec := ih (retries + 1) (by omega)
        (fun k hk1 hk2 => htr k (by omega) hk2)
      rcases htr retries le_rfl hrm with h | h
      · simp only [queryLoop, if_pos hrm, h]
        refine ⟨hrec.1, ?_⟩
        rw [show (queryLoop resp mr fuel (retries + 1)).2.2 = mr - (retries + 1)
          from hrec.2]
        omega
      · have hnonneg : ¬((2 : ℤ) ^ (retries + 1) < 0) :=
          not_lt.mpr (by positivity)
        by_cases hr : retries + 1 < mr
        · simp only [queryLoop, if_pos hrm, h, eq_self_iff_true, if_true,
            if_pos hr, if_neg hnonneg]
          refine ⟨hrec.1, ?_⟩
          rw [show (queryLoop resp mr fuel (retries + 1)).2.2 = mr - (retries + 1)
            from hrec.2]
          omega
        · simp only [queryLoop, if_pos hrm, h, eq_self_iff_true, if_true,
            if_neg hr]
          refine ⟨hrec.1, ?_⟩
          rw [show (queryLoop resp mr fuel (retries + 1)).2.2 = mr - (retries + 1)
            from hrec.2]
          omega
    · simp only [queryLoop, if_neg hrm]
      refine ⟨trivial, ?_⟩
      omega

/-- C9 (amended): query_overpass retries only timeouts and HTTP 429
responses, with exponential backoff 2^k after the k-th failed attempt, up
to the retry ceiling, and exhausting the ceiling returns None; a 429
whose Retry-After header parses as a non-negative integer sleeps that
value in place of the computed backoff; any other HTTP error (a 5xx
included) or exception returns None immediately after a single request.
The function can raise: a 429 carrying a Retry-After header that is not
an integer string, or one that parses negative, raises ValueError out of
query_overpass when another attempt remains. -/
theorem query_overpass_retry_policy :
    (∀ (mr : ℕ) (resp : ℕ → OverpassResp ℕ),
        (∀ k, k < mr → resp k = OverpassResp.timeout ∨
            resp k = OverpassResp.httpError 429 none) →
        (query_overpass resp mr).1 = QueryResult.returns none
          ∧ (query_overpass resp mr).2.2 = mr)
    ∧ query_overpass (fun _ => (OverpassResp.timeout : OverpassResp ℕ)) 3
        = (QueryResult.returns none, [2, 4], 3)
    ∧ (∀ d : ℕ, query_overpass
          (fun k => if k = 0 then OverpassResp.httpError 429 (some "7")
            else OverpassResp.ok d) 3 = (QueryResult.returns (some d), [7], 2))
    ∧ (∀ d : ℕ, query_overpass
          (fun k => if k = 0 then OverpassResp.httpError 429 none
            else OverpassResp.ok d) 3 = (QueryResult.returns (some d), [2], 2))
    ∧ (∀ (s : ℕ) (ra : Option String) (mr : ℕ), s ≠ 429 → 0 < mr →
        query_overpass (fun _ => (OverpassResp.httpError s ra : OverpassResp ℕ)) mr
          = (QueryResult.returns none, [], 1))
    ∧ (∀ (hdr : String) (mr : ℕ), pyIntStr? hdr = none → 1 < mr →
        query_overpass
          (fun _ => (OverpassResp.httpError 429 (some hdr) : OverpassResp ℕ)) mr
          = (QueryResult.raises, [], 1))
    ∧ query_overpass
        (fun _ => (OverpassResp.httpError 429 (some "Wed, 21 Oct 2015 07:28:00 GMT")
          : OverpassResp ℕ)) 3 = (QueryResult.raises, [], 1)
    ∧ query_overpass
        (fun _ => (OverpassResp.httpError 429 (some "-5") : OverpassResp ℕ)) 3
        = (QueryResult.raises, [], 1) := by
  refine ⟨?_, by decide, ?_, ?_, ?_, ?_, by decide, by decide⟩
  · intro mr resp htr
    have h := queryLoop_all_transient resp mr (mr + 1) 0 (by omega)
      (fun k _ hk2 => htr k hk2)
    refine ⟨h.1, ?_⟩
    rw [show (query_overpass resp mr).2.2
      = (queryLoop resp mr (mr + 1) 0).2.2 from rfl, h.2]
    omega
  · intro d
    rfl
  · intro d
    rfl
  · intro s ra mr hs hmr
    have hm1 : ∃ t, mr = t + 1 := ⟨mr - 1, by omega⟩
    obtain ⟨t, rfl⟩ := hm1
    simp [query_overpass, queryLoop, hs, hmr]
  · intro hdr mr hhdr hmr
    have hm2 : ∃ t, mr = t + 2 := ⟨mr - 2, by omega⟩
    obtain ⟨t, rfl⟩ := hm2
    have h0 : (0 : ℕ) < t + 2 := by omega
    have h1 : (1 : ℕ) < t + 2 := by omega
    simp [query_overpass, queryLoop, h0, h1, hhdr]

/-- C9 counterexample: an HTTP 500 response is not retried — with the
default ceiling of 3 attempts, a single request is made and None is
returned at once with no backoff sleeps. -/
theorem query_overpass_5xx_not_retried :
    query_overpass (fun _ => (OverpassResp.httpError 500 none : OverpassResp ℕ)) 3
      = (QueryResult.returns none, [], 1) ∧ (1 : ℕ) ≠ 3 :=
  ⟨by decide, by decide⟩
